import Mathlib

/-!
Verification of the single-file to-do HTTP API (`src/main.py`).

The program keeps an in-memory Python dict `fake_todos_db : Dict[int, Todo]`
mapping integer ids to pydantic `Todo` models, seeded with ids 1 and 2, and
exposes five route handlers: `create_todo`, `get_todo`, `update_todo`,
`delete_todo`, `list_todo`.

Modelling decisions (shallow embedding):

* A Python dict is modelled as an insertion-ordered association list
  `List (Int × Todo)` with unique keys; `dictGet`, `dictSet`, `dictDel`
  give Python's `d.get(k)`, `d[k] = v` and `del d[k]` semantics
  (update-in-place of the first matching key, append when absent, erase of
  the matching entry).

* Python `int` is `Int`, `str` is `String`, `str | None` is `Option String`.

* Route handlers become state-passing functions
  `TodoDb → args → Except Fail α × TodoDb`: the returned db is the store
  after the call.  `Fail.httpException 404 detail` models
  `raise HTTPException(status_code=404, detail=...)` (surfaced as HTTP 404);
  `Fail.pyTypeError` models an uncaught Python `TypeError` (surfaced by the
  framework as HTTP 500).  An exception leaves the store as it was at the
  moment of the raise.

* `create_todo` (main.py lines 36-56) is embedded with its actual runtime
  behaviour.  Line 43 computes `new_id = max(fake_todos_db.keys() or [0]) + 1`.
  Lines 46-53 then build `new_todo = { Todo(id=new_id, ...) }` — a Python
  SET literal containing one pydantic model, not the model itself.
  Constructing that set calls `hash()` on the `Todo` instance; pydantic
  `BaseModel` subclasses with the default (non-frozen, mutable) config
  define `__eq__` but leave `__hash__ = None`, so the instance is unhashable
  and the set display raises `TypeError: unhashable type: 'Todo'`.
  Consequently line 55 (`fake_todos_db[new_id] = new_todo`) never executes:
  every call to the create endpoint raises before touching the store, and
  no record is ever inserted or returned.  (Had the value been hashable,
  the code would have stored and returned the one-element set instead of the
  record, contradicting the `Dict[int, Todo]` annotation just the same.)
-/

namespace TodoApp

/-- The `Todo` pydantic model of main.py lines 15-19:
`id : int`, `title : str`, `description : str | None = None`,
`completed : bool = False`. -/
structure Todo where
  id : Int
  title : String
  description : Option String
  completed : Bool
deriving Repr, DecidableEq

/-- The `TodoCreate` request model of main.py lines 23-25: `title` and an
optional `description`.  The length constraints live in `TodoCreate.valid`
below; FastAPI enforces them before the handler runs. -/
structure TodoCreate where
  title : String
  description : Option String
deriving Repr, DecidableEq

/-- The framework-side validation of `TodoCreate` (main.py lines 24-25):
`title` has `min_length=1, max_length=100`, `description` has
`max_length=100` when present. -/
def TodoCreate.valid (c : TodoCreate) : Prop :=
  1 ≤ c.title.length ∧ c.title.length ≤ 100 ∧
    c.description.all (fun d => decide (d.length ≤ 100)) = true

/-- The in-memory store: a Python `Dict[int, Todo]` as an insertion-ordered
association list with unique keys. -/
abbrev TodoDb := List (Int × Todo)

/-- Python `d.get(k)`: the value stored under `k`, if any. -/
def dictGet (db : TodoDb) (k : Int) : Option Todo :=
  match db with
  | [] => none
  | (k', v) :: rest => if k' = k then some v else dictGet rest k

/-- Python `k in d`: key containment. -/
def dictContains (db : TodoDb) (k : Int) : Bool :=
  (dictGet db k).isSome

/-- Python `d[k] = v`: replace the value of an existing key in place,
append a new entry otherwise. -/
def dictSet (db : TodoDb) (k : Int) (v : Todo) : TodoDb :=
  match db with
  | [] => [(k, v)]
  | (k', v') :: rest => if k' = k then (k, v) :: rest else (k', v') :: dictSet rest k v

/-- Python `del d[k]`: remove the entry with key `k` (dict keys are unique,
so at most one entry matches; we erase the first). -/
def dictDel (db : TodoDb) (k : Int) : TodoDb :=
  match db with
  | [] => []
  | (k', v') :: rest => if k' = k then rest else (k', v') :: dictDel rest k

/-- Python `d.keys()` as a list. -/
def dictKeys (db : TodoDb) : List Int :=
  db.map Prod.fst

/-- The possible failure outcomes of a handler call. -/
inductive Fail where
  /-- `raise HTTPException(status_code, detail)`. -/
  | httpException (statusCode : Nat) (detail : String)
  /-- An uncaught Python `TypeError` (no HTTPException: the framework turns
  it into a 500 response). -/
  | pyTypeError (msg : String)
deriving Repr, DecidableEq

/-- The 404 detail produced by `get_todo` (line 69) and `update_todo`
(line 84): the Python f-string interpolates the id. -/
def notFoundDetail (todo_id : Int) : String :=
  "할 일을 찾을 수 없습니다. : " ++ toString todo_id

/-- The 404 detail produced by `delete_todo` (line 105). -/
def deleteNotFoundDetail : String :=
  "해당 ID의 할 일을 찾을 수 없습니다."

/-- The first seeded record (main.py line 32). -/
def seededTodo1 : Todo :=
  ⟨1, "Buy groceries", some "Milk, Cheese, Pizza, Fruit, Tylenol", false⟩

/-- The second seeded record (main.py line 33). -/
def seededTodo2 : Todo :=
  ⟨2, "Learn Python", some "Need to find a good Python tutorial on the web", false⟩

/-- The seeded store `fake_todos_db` (main.py lines 31-34). -/
def fake_todos_db : TodoDb :=
  [(1, seededTodo1), (2, seededTodo2)]

/-- Python `max` over a list of ints; the empty case raises `ValueError` in
Python and is never reached here (`next_id` only applies it to a nonempty
list), so it is given an arbitrary total value. -/
def pymax : List Int → Int
  | [] => 0
  | x :: xs => xs.foldl max x

/-- Line 43: `new_id = max(fake_todos_db.keys() or [0]) + 1`.  An empty
dict makes `fake_todos_db.keys()` falsy, so `or` substitutes `[0]`. -/
def next_id (db : TodoDb) : Int :=
  pymax (if db.isEmpty then [0] else dictKeys db) + 1

/-- `create_todo` (main.py lines 36-56).  Line 43 computes `new_id`; lines
46-53 build the set literal `new_todo = { Todo(id=new_id, title=..., description=...,
completed=False) }`, whose construction hashes the unhashable pydantic
instance and raises `TypeError: unhashable type: 'Todo'`; line 55 is never
reached, so the store is returned unchanged.  The `let` bindings record the
values the two executed lines produce before the raise. -/
def create_todo (db : TodoDb) (todo_data : TodoCreate) : Except Fail Todo × TodoDb :=
  let new_id := next_id db
  let _todoArgOfSetLiteral : Todo :=
    ⟨new_id, todo_data.title, todo_data.description, false⟩
  (Except.error (Fail.pyTypeError "unhashable type: Todo"), db)

/-- `get_todo` (main.py lines 57-72): `todo = fake_todos_db.get(todo_id)`;
`if not todo:` raises 404.  A pydantic model instance is always truthy, so
`not todo` holds exactly when `get` returned `None`. -/
def get_todo (db : TodoDb) (todo_id : Int) : Except Fail Todo × TodoDb :=
  match dictGet db todo_id with
  | none => (Except.error (Fail.httpException 404 (notFoundDetail todo_id)), db)
  | some todo => (Except.ok todo, db)

/-- `update_todo` (main.py lines 74-96): 404 when `todo_id not in
fake_todos_db`; otherwise load the record, overwrite its `title` and
`description` with the request data (lines 89-90), store it back under the
same key (line 93) and return it.  `id` and `completed` are untouched.
The `none` branch of the inner match is unreachable (containment was just
checked); in Python the indexing would raise `KeyError` there. -/
def update_todo (db : TodoDb) (todo_data : TodoCreate) (todo_id : Int) :
    Except Fail Todo × TodoDb :=
  if dictContains db todo_id then
    match dictGet db todo_id with
    | some todo =>
        let todo' : Todo := ⟨todo.id, todo_data.title, todo_data.description, todo.completed⟩
        (Except.ok todo', dictSet db todo_id todo')
    | none => (Except.error (Fail.pyTypeError "KeyError"), db)
  else
    (Except.error (Fail.httpException 404 (notFoundDetail todo_id)), db)

/-- `delete_todo` (main.py lines 99-108): 404 when the id is absent,
otherwise `del fake_todos_db[todo_id]` and return no content
(`Unit` models the empty 204 body). -/
def delete_todo (db : TodoDb) (todo_id : Int) : Except Fail Unit × TodoDb :=
  if dictContains db todo_id then
    (Except.ok (), dictDel db todo_id)
  else
    (Except.error (Fail.httpException 404 deleteNotFoundDetail), db)

/-- `list_todo` (main.py lines 110-113): returns the whole mapping; never
fails and never mutates. -/
def list_todo (db : TodoDb) : Except Fail TodoDb × TodoDb :=
  (Except.ok db, db)

/-- The store states reachable from the seeded `fake_todos_db` by any
sequence of handler calls with arbitrary arguments. -/
inductive Reachable : TodoDb → Prop where
  | seed : Reachable fake_todos_db
  | create (db : TodoDb) (td : TodoCreate) :
      Reachable db → Reachable (create_todo db td).2
  | get (db : TodoDb) (i : Int) :
      Reachable db → Reachable (get_todo db i).2
  | update (db : TodoDb) (td : TodoCreate) (i : Int) :
      Reachable db → Reachable (update_todo db td i).2
  | delete (db : TodoDb) (i : Int) :
      Reachable db → Reachable (delete_todo db i).2
  | listAll (db : TodoDb) :
      Reachable db → Reachable (list_todo db).2

/-- The store invariant of spec section 3: every value is keyed by its own
`id` field. -/
def IdsMatch (db : TodoDb) : Prop :=
  ∀ k t, (k, t) ∈ db → t.id = k

/-! ### Lemmas about the dict model -/

theorem dictGet_dictSet_self (db : TodoDb) (k : Int) (v : Todo) :
    dictGet (dictSet db k v) k = some v := by
  induction db with
  | nil => simp [dictSet, dictGet]
  | cons hd tl ih =>
      obtain ⟨k', v'⟩ := hd
      by_cases h : k' = k
      · simp [dictSet, h, dictGet]
      · simp [dictSet, h, dictGet, ih]

theorem dictGet_dictSet_ne (db : TodoDb) (k k' : Int) (v : Todo) (h : k' ≠ k) :
    dictGet (dictSet db k v) k' = dictGet db k' := by
  induction db with
  | nil => simp [dictSet, dictGet, Ne.symm h]
  | cons hd tl ih =>
      obtain ⟨k0, v0⟩ := hd
      by_cases h0 : k0 = k
      · subst h0
        simp [dictSet, dictGet, Ne.symm h]
      · simp [dictSet, h0, dictGet, ih]

theorem dictKeys_dictSet_of_contains (db : TodoDb) (k : Int) (v : Todo)
    (h : dictContains db k = true) :
    dictKeys (dictSet db k v) = dictKeys db := by
  induction db with
  | nil => simp [dictContains, dictGet] at h
  | cons hd tl ih =>
      obtain ⟨k0, v0⟩ := hd
      by_cases h0 : k0 = k
      · simp [dictSet, h0, dictKeys]
      · have h' : dictContains tl k = true := by
          simpa [dictContains, dictGet, h0] using h
        simp [dictSet, h0, dictKeys] at ih ⊢
        exact ih h'

theorem dictGet_mem (db : TodoDb) (k : Int) (t : Todo) (h : dictGet db k = some t) :
    (k, t) ∈ db := by
  induction db with
  | nil => simp [dictGet] at h
  | cons hd tl ih =>
      obtain ⟨k0, v0⟩ := hd
      by_cases h0 : k0 = k
      · subst h0
        simp [dictGet] at h
        simp [h]
      · simp [dictGet, h0] at h
        exact List.mem_cons_of_mem _ (ih h)

theorem mem_dictSet (db : TodoDb) (k k' : Int) (v v' : Todo)
    (h : (k', v') ∈ dictSet db k v) : (k', v') ∈ db ∨ (k', v') = (k, v) := by
  induction db with
  | nil => simp [dictSet] at h; simp [h]
  | cons hd tl ih =>
      obtain ⟨k0, v0⟩ := hd
      by_cases h0 : k0 = k
      · simp [dictSet, h0] at h
        rcases h with h | h
        · right; simp [h]
        · left; exact List.mem_cons_of_mem _ h
      · simp [dictSet, h0] at h
        rcases h with h | h
        · left; simp [h]
        · rcases ih h with h' | h'
          · left; exact List.mem_cons_of_mem _ h'
          · right; exact h'

theorem mem_dictDel (db : TodoDb) (k : Int) (p : Int × Todo)
    (h : p ∈ dictDel db k) : p ∈ db := by
  induction db with
  | nil => simp [dictDel] at h
  | cons hd tl ih =>
      obtain ⟨k0, v0⟩ := hd
      by_cases h0 : k0 = k
      · simp [dictDel, h0] at h
        exact List.mem_cons_of_mem _ h
      · simp [dictDel, h0] at h
        rcases h with h | h
        · simp [h]
        · exact List.mem_cons_of_mem _ (ih h)

theorem dictGet_eq_none_of_not_mem_keys (db : TodoDb) (k : Int)
    (h : k ∉ dictKeys db) : dictGet db k = none := by
  induction db with
  | nil => rfl
  | cons hd tl ih =>
      obtain ⟨k0, v0⟩ := hd
      simp [dictKeys] at h
      simp [dictGet, Ne.symm h.1, ih (by simpa [dictKeys] using h.2)]

theorem dictGet_dictDel_self (db : TodoDb) (k : Int)
    (hnd : (dictKeys db).Nodup) : dictGet (dictDel db k) k = none := by
  induction db with
  | nil => rfl
  | cons hd tl ih =>
      obtain ⟨k0, v0⟩ := hd
      simp [dictKeys] at hnd
      by_cases h0 : k0 = k
      · subst h0
        simp [dictDel]
        exact dictGet_eq_none_of_not_mem_keys tl k0 (by simpa [dictKeys] using hnd.1)
      · simp [dictDel, h0, dictGet]
        exact ih (by simpa [dictKeys] using hnd.2)

theorem dictGet_dictDel_ne (db : TodoDb) (k k' : Int) (h : k' ≠ k) :
    dictGet (dictDel db k) k' = dictGet db k' := by
  induction db with
  | nil => rfl
  | cons hd tl ih =>
      obtain ⟨k0, v0⟩ := hd
      by_cases h0 : k0 = k
      · subst h0
        simp [dictDel, dictGet, Ne.symm h]
      · simp [dictDel, h0, dictGet, ih]

/-! ### Preservation of the id invariant -/

theorem idsMatch_dictSet (db : TodoDb) (k : Int) (v : Todo)
    (hdb : IdsMatch db) (hv : v.id = k) : IdsMatch (dictSet db k v) := by
  intro k' t' hmem
  rcases mem_dictSet db k k' v t' hmem with h | h
  · exact hdb k' t' h
  · obtain ⟨hk, ht⟩ := Prod.mk.injEq .. ▸ h
    rw [ht, hk]
    exact hv

theorem idsMatch_dictDel (db : TodoDb) (k : Int)
    (hdb : IdsMatch db) : IdsMatch (dictDel db k) := by
  intro k' t' hmem
  exact hdb k' t' (mem_dictDel db k _ hmem)

theorem idsMatch_seed : IdsMatch fake_todos_db := by
  intro k t hmem
  simp [fake_todos_db, List.mem_cons] at hmem
  rcases hmem with ⟨hk, ht⟩ | ⟨hk, ht⟩ <;> subst hk <;> subst ht <;> rfl

theorem create_todo_snd (db : TodoDb) (td : TodoCreate) :
    (create_todo db td).2 = db := rfl

theorem get_todo_snd (db : TodoDb) (i : Int) : (get_todo db i).2 = db := by
  unfold get_todo
  cases dictGet db i <;> rfl

theorem list_todo_snd (db : TodoDb) : (list_todo db).2 = db := rfl

theorem idsMatch_update (db : TodoDb) (td : TodoCreate) (i : Int)
    (hdb : IdsMatch db) : IdsMatch (update_todo db td i).2 := by
  unfold update_todo
  cases hg : dictGet db i with
  | none => simp [dictContains, hg]; exact hdb
  | some todo =>
      simp [dictContains, hg]
      refine idsMatch_dictSet db i _ hdb ?_
      exact hdb i todo (dictGet_mem db i todo hg)

theorem idsMatch_delete (db : TodoDb) (i : Int)
    (hdb : IdsMatch db) : IdsMatch (delete_todo db i).2 := by
  unfold delete_todo
  cases hg : dictGet db i with
  | none => simp [dictContains, hg]; exact hdb
  | some todo =>
      simp [dictContains, hg]
      exact idsMatch_dictDel db i hdb

theorem reachable_idsMatch (db : TodoDb) (h : Reachable db) : IdsMatch db := by
  induction h with
  | seed => exact idsMatch_seed
  | create db td _ ih => rw [create_todo_snd]; exact ih
  | get db i _ ih => rw [get_todo_snd]; exact ih
  | update db td i _ ih => exact idsMatch_update db td i ih
  | delete db i _ ih => exact idsMatch_delete db i ih
  | listAll db _ ih => rw [list_todo_snd]; exact ih

/-! ### Claim theorems -/

/-- C1: the claim that `create(title, description)` inserts
`(id = new_id, title, description, completed = false)` into the store and
returns it FAILS on the code: for every store state and every valid request
body, `create_todo` raises `TypeError: unhashable type: Todo` while
building the set literal of main.py lines 46-53 — before line 55 can run —
so nothing is inserted, nothing is returned, and the store is unchanged. -/
theorem c1_create_raises_type_error (db : TodoDb) (td : TodoCreate)
    (_hv : td.valid) :
    create_todo db td =
      (Except.error (Fail.pyTypeError "unhashable type: Todo"), db) := rfl

/-- C1 witness: the raise happens concretely for `title="X"`, no
description, on the seeded store. -/
theorem c1_create_raises_type_error_witness :
    TodoCreate.valid ⟨"X", none⟩ ∧
    create_todo fake_todos_db ⟨"X", none⟩ =
      (Except.error (Fail.pyTypeError "unhashable type: Todo"), fake_todos_db) := by
  have hv : TodoCreate.valid ⟨"X", none⟩ := ⟨by decide, by decide, by decide⟩
  exact ⟨hv, c1_create_raises_type_error fake_todos_db ⟨"X", none⟩ hv⟩

/-- C2: on every store state reachable from the seeded `fake_todos_db` by
any sequence of handler calls, every stored value is a `Todo` record whose
own `id` field equals the key it is stored under. -/
theorem c2_reachable_ids_match (db : TodoDb) (h : Reachable db)
    (k : Int) (t : Todo) (hm : (k, t) ∈ db) : t.id = k :=
  reachable_idsMatch db h k t hm

/-- C2 witness: the seeded store is reachable and its entry under key 1
carries `id = 1`. -/
theorem c2_reachable_ids_match_witness : seededTodo1.id = 1 :=
  c2_reachable_ids_match fake_todos_db Reachable.seed 1 seededTodo1
    (by simp [fake_todos_db])

/-- C3: the claim that create stores the new entry under
`max(existing ids, default 0) + 1` FAILS on the code: on the seeded store
the id computed at main.py line 43 is indeed 3, but the handler then raises
`TypeError` (the line-46 set literal) before the store write at line 55,
so no entry appears under key 3 and the store keeps only the seeds. -/
theorem c3_create_computes_id3_but_stores_nothing :
    next_id fake_todos_db = 3 ∧
    create_todo fake_todos_db ⟨"third", none⟩ =
      (Except.error (Fail.pyTypeError "unhashable type: Todo"), fake_todos_db) ∧
    dictGet fake_todos_db 3 = none :=
  ⟨rfl, rfl, rfl⟩

/-- C4: for every id absent from the store, `get_todo`, `update_todo` and
`delete_todo` all fail with the HTTP 404 `HTTPException` and return the
store unchanged. -/
theorem c4_missing_id_not_found (db : TodoDb) (i : Int) (td : TodoCreate)
    (h : dictGet db i = none) :
    get_todo db i = (Except.error (Fail.httpException 404 (notFoundDetail i)), db) ∧
    update_todo db td i =
      (Except.error (Fail.httpException 404 (notFoundDetail i)), db) ∧
    delete_todo db i =
      (Except.error (Fail.httpException 404 deleteNotFoundDetail), db) := by
  refine ⟨?_, ?_, ?_⟩ <;> simp [get_todo, update_todo, delete_todo, dictContains, h]

/-- C4 witness: id 99 is absent from the seeded store and all three
handlers 404 on it without mutating. -/
theorem c4_missing_id_not_found_witness :
    dictGet fake_todos_db 99 = none ∧
    get_todo fake_todos_db 99 =
      (Except.error (Fail.httpException 404 (notFoundDetail 99)), fake_todos_db) ∧
    update_todo fake_todos_db ⟨"t", none⟩ 99 =
      (Except.error (Fail.httpException 404 (notFoundDetail 99)), fake_todos_db) ∧
    delete_todo fake_todos_db 99 =
      (Except.error (Fail.httpException 404 deleteNotFoundDetail), fake_todos_db) :=
  ⟨rfl, c4_missing_id_not_found fake_todos_db 99 ⟨"t", none⟩ rfl⟩

/-- C5: for every id present in the store, `update_todo` succeeds,
returns the record with `title` and `description` replaced by the request
values and `id` and `completed` taken unchanged from the stored record,
and the store afterwards holds exactly that updated record under the id. -/
theorem c5_update_existing (db : TodoDb) (i : Int) (t : Todo) (td : TodoCreate)
    (h : dictGet db i = some t) :
    update_todo db td i =
      (Except.ok (⟨t.id, td.title, td.description, t.completed⟩ : Todo),
        dictSet db i ⟨t.id, td.title, td.description, t.completed⟩) ∧
    dictGet (update_todo db td i).2 i =
      some ⟨t.id, td.title, td.description, t.completed⟩ := by
  have hc : dictContains db i = true := by simp [dictContains, h]
  refine ⟨by simp [update_todo, hc, h], ?_⟩
  simp [update_todo, hc, h, dictGet_dictSet_self]

/-- C5 witness: updating seeded id 1 with a new title and description
keeps `id = 1` and `completed = false`. -/
theorem c5_update_existing_witness :
    update_todo fake_todos_db ⟨"New title", some "New desc"⟩ 1 =
      (Except.ok (⟨1, "New title", some "New desc", false⟩ : Todo),
        dictSet fake_todos_db 1 ⟨1, "New title", some "New desc", false⟩) ∧
    dictGet (update_todo fake_todos_db ⟨"New title", some "New desc"⟩ 1).2 1 =
      some ⟨1, "New title", some "New desc", false⟩ :=
  c5_update_existing fake_todos_db 1 seededTodo1 ⟨"New title", some "New desc"⟩ rfl

/-- C6 counterexample: the claim that, after deleting id 2 from the seeded
store, the next create yields a record with `id = 3` is FALSE at that
exact input: the create call returns no record at all (it raises the C1
`TypeError`), so in particular no returned record has id 3. -/
theorem c6_delete2_create_no_id3 :
    ¬ ∃ t : Todo,
        (create_todo (delete_todo fake_todos_db 2).2 ⟨"again", none⟩).1 =
          Except.ok t ∧ t.id = 3 := by
  rintro ⟨t, ht, -⟩
  simp [create_todo] at ht

/-- C6 amended: after deleting id 2 from the seeded store the max+1 rule
of line 43 computes 2 — reusing the deleted maximum id, not 3 — and the
create call itself then raises before inserting anything. -/
theorem c6_delete2_next_id_reused :
    delete_todo fake_todos_db 2 = (Except.ok (), [(1, seededTodo1)]) ∧
    next_id [(1, seededTodo1)] = 2 ∧
    create_todo [(1, seededTodo1)] ⟨"again", none⟩ =
      (Except.error (Fail.pyTypeError "unhashable type: Todo"), [(1, seededTodo1)]) :=
  ⟨rfl, rfl, rfl⟩

/-- C7: for every id present in the store, `get_todo` succeeds and returns
exactly the stored record, leaving the store unchanged. -/
theorem c7_get_existing (db : TodoDb) (i : Int) (t : Todo)
    (h : dictGet db i = some t) : get_todo db i = (Except.ok t, db) := by
  simp [get_todo, h]

/-- C7 witness: fetching seeded id 1 returns the first seeded record. -/
theorem c7_get_existing_witness :
    get_todo fake_todos_db 1 = (Except.ok seededTodo1, fake_todos_db) :=
  c7_get_existing fake_todos_db 1 seededTodo1 rfl

/-- C8: for every id present in a store with duplicate-free keys (every
Python dict), `delete_todo` succeeds with no content, afterwards the id is
no longer present, and every other key still maps to its old value. -/
theorem c8_delete_existing (db : TodoDb) (i : Int)
    (hnd : (dictKeys db).Nodup) (h : dictContains db i = true)
    (k : Int) (hk : k ≠ i) :
    (delete_todo db i).1 = Except.ok () ∧
    dictGet (delete_todo db i).2 i = none ∧
    dictGet (delete_todo db i).2 k = dictGet db k := by
  have hd : delete_todo db i = (Except.ok (), dictDel db i) := by
    simp [delete_todo, h]
  refine ⟨by simp [hd], ?_, ?_⟩
  · rw [hd]
    exact dictGet_dictDel_self db i hnd
  · rw [hd]
    exact dictGet_dictDel_ne db i k hk

/-- C8 witness: deleting seeded id 2 returns no content, removes id 2 and
leaves id 1 untouched. -/
theorem c8_delete_existing_witness :
    (delete_todo fake_todos_db 2).1 = Except.ok () ∧
    dictGet (delete_todo fake_todos_db 2).2 2 = none ∧
    dictGet (delete_todo fake_todos_db 2).2 1 = dictGet fake_todos_db 1 :=
  c8_delete_existing fake_todos_db 2 (by decide) rfl 1 (by decide)

/-- C9: on the freshly seeded store, `list_todo` succeeds and returns
exactly the two seeded records (keys 1 and 2) and nothing else, without
mutating the store. -/
theorem c9_list_seeded :
    list_todo fake_todos_db =
      (Except.ok [(1, seededTodo1), (2, seededTodo2)], fake_todos_db) := rfl

/-- C10: a successful update of id `i` leaves the entry under every other
key `k` unchanged and preserves the key sequence of the store exactly, so
no key is added or removed. -/
theorem c10_update_frame (db : TodoDb) (i : Int) (t : Todo) (td : TodoCreate)
    (h : dictGet db i = some t) (k : Int) (hk : k ≠ i) :
    dictGet (update_todo db td i).2 k = dictGet db k ∧
    dictKeys (update_todo db td i).2 = dictKeys db := by
  have hc : dictContains db i = true := by simp [dictContains, h]
  constructor
  · simp only [update_todo, hc, if_true, h]
    exact dictGet_dictSet_ne db i k _ hk
  · simp only [update_todo, hc, if_true, h]
    exact dictKeys_dictSet_of_contains db i _ hc

/-- C10 witness: updating seeded id 2 leaves key 1 untouched and keeps the
key list `[1, 2]`. -/
theorem c10_update_frame_witness :
    dictGet (update_todo fake_todos_db ⟨"U", none⟩ 2).2 1 = dictGet fake_todos_db 1 ∧
    dictKeys (update_todo fake_todos_db ⟨"U", none⟩ 2).2 = dictKeys fake_todos_db :=
  c10_update_frame fake_todos_db 2 seededTodo2 ⟨"U", none⟩ rfl 1 (by decide)

end TodoApp
